import Mathlib

/-!
Verification of the real-time anomaly detection and alerting pipeline of the
EMS agent repository (streaming service and monitoring service), as a shallow
embedding in Lean 4.

The definitions below are translated from the Python sources:
  * `src/services/streaming/service.py` — `StreamMessage`, `StreamBuffer`,
    `RealTimeAnalyzer.analyze_message`, `WebSocketStreamer`.
  * `src/services/monitoring/service.py` — `Alert`, `AlertInstance`,
    `AlertManager.evaluate_alert`, `AlertManager._handle_escalation`,
    the `acknowledge_alert` route handler.

Modelling conventions:
  * Python floats are modelled as exact rationals (`ℚ`); the only operation
    that leaves `ℚ` is the square root inside `np.std`, so the embedding
    carries the square of the standard deviation (the population variance)
    through the computable state and applies `Real.sqrt` at the boundary
    where a statement speaks about the standard deviation or the z-score.
  * `datetime.now()` / `time.time()` are modelled by an explicit `now : ℚ`
    argument supplied by the caller; successive calls use increasing values.
  * Python dicts (insertion ordered, unique keys) are modelled by
    association lists with order-preserving update and delete; Python sets
    are modelled by `Finset`.
  * asyncio tasks stored in `AlertManager.escalation_timers` are modelled by
    the list of keys whose escalation task is alive (not yet cancelled);
    `task.cancel()` removes the key.
-/

/-- `StreamMessage` from `src/services/streaming/service.py`: one telemetry
sample; `metadata` is modelled as a key-value list. -/
structure StreamMessage where
  timestamp : ℚ
  device_id : String
  metric_type : String
  value : ℚ
  unit : String
  quality : String := "good"
  metadata : List (String × String) := []
deriving DecidableEq, Repr

/-- `StreamBuffer` from the streaming service: a `deque(maxlen=max_size)`
holding messages oldest-first, plus the running message counter. -/
structure StreamBuffer where
  max_size : Nat
  buffer : List StreamMessage
  total_messages : Nat
deriving DecidableEq, Repr

/-- `StreamBuffer.__init__(max_size)`. -/
def mkStreamBuffer (max_size : Nat) : StreamBuffer :=
  { max_size := max_size, buffer := [], total_messages := 0 }

/-- `StreamBuffer.add`: `self.buffer.append(message)` on a bounded deque —
when the deque is full the oldest entry is dropped from the left. -/
def StreamBuffer.add (b : StreamBuffer) (m : StreamMessage) : StreamBuffer :=
  let w := b.buffer ++ [m]
  { b with
    buffer := if b.max_size < w.length then w.drop (w.length - b.max_size) else w
    total_messages := b.total_messages + 1 }

/-- `StreamBuffer.get_recent(seconds)`: returns the buffered messages with
`msg.timestamp >= now - seconds` (`cutoff = time.time() - seconds`), in
buffer (insertion) order.  `now` is the value of `time.time()` at the call. -/
def StreamBuffer.get_recent (b : StreamBuffer) (now seconds : ℚ) : List StreamMessage :=
  b.buffer.filter (fun m => now - seconds ≤ m.timestamp)

-- Concrete messages for the capacity-3 scenario of the specification.
def msgA : StreamMessage :=
  { timestamp := 1, device_id := "dev1", metric_type := "voltage", value := 10, unit := "V" }

def msgB : StreamMessage :=
  { timestamp := 2, device_id := "dev1", metric_type := "voltage", value := 11, unit := "V" }

def msgC : StreamMessage :=
  { timestamp := 3, device_id := "dev1", metric_type := "voltage", value := 12, unit := "V" }

def msgD : StreamMessage :=
  { timestamp := 4, device_id := "dev1", metric_type := "voltage", value := 13, unit := "V" }

/-- The `deque(maxlen=1000)` bound of `RealTimeAnalyzer.metric_stats` windows. -/
def windowMax : Nat := 1000

/-- `np.mean` over a window (division by zero yields 0 for the empty list,
which the analyzer never relies on). -/
def listMean (l : List ℚ) : ℚ := l.sum / l.length

/-- Population variance over a window: the square of `np.std`, which is the
population (not sample) standard deviation. -/
def popVar (l : List ℚ) : ℚ := listMean (l.map (fun x => (x - listMean l) ^ 2))

/-- The per-key entry of `RealTimeAnalyzer.metric_stats`: the bounded value
window plus the stored `mean` and `std`.  The stored `std` of the code is a
nonnegative float; it is represented here by its square `var`, so the stored
standard deviation is `Real.sqrt var`. -/
structure MetricStats where
  values : List ℚ
  mean : ℚ
  var : ℚ
deriving DecidableEq, Repr

/-- The defaultdict initial entry: empty window, `mean = 0.0`, `std = 0.0`. -/
def initStats : MetricStats := { values := [], mean := 0, var := 0 }

/-- `stats_data['values'].append(message.value)` on a `deque(maxlen=1000)`. -/
def pushWindow (w : List ℚ) (v : ℚ) : List ℚ :=
  if windowMax < (w ++ [v]).length then (w ++ [v]).drop ((w ++ [v]).length - windowMax)
  else w ++ [v]

/-- The rolling-statistics update of `analyze_message` (lines 103-108): append
the value, and only when the window holds at least 10 samples recompute
`mean = np.mean(values)` and `std = np.std(values)` (stored as `var = std²`);
otherwise the stored statistics are left unchanged. -/
def updateStats (s : MetricStats) (v : ℚ) : MetricStats :=
  if 10 ≤ (pushWindow s.values v).length then
    { values := pushWindow s.values v, mean := listMean (pushWindow s.values v),
      var := popVar (pushWindow s.values v) }
  else { s with values := pushWindow s.values v }

/-- Regression abscissas `range(len(recent_values))` as rationals. -/
def idxList (n : Nat) : List ℚ := (List.range n).map (fun i => (i : ℚ))

/-- Population covariance of two equal-length samples, used for the
`linregress` slope and correlation. -/
def covList (xs ys : List ℚ) : ℚ :=
  listMean (List.zipWith (fun a b => (a - listMean xs) * (b - listMean ys)) xs ys)

/-- Trend classification of `analyze_message` (lines 119-125): over the last
20 values, `stats.linregress` gives `slope = cov/var(x)` and
`r = cov/(std(x)·std(y))`; the code tests `abs(r_value) > 0.7` and the sign
of the slope.  Squaring both tests keeps the computation in `ℚ`:
`|r| > 0.7 ↔ cov² > 0.49·var(x)·var(y)` (`var(x) > 0` for 20 distinct
abscissas; a constant y-window gives `cov = 0`, hence "stable", matching the
NaN correlation of scipy), and `slope > 0 ↔ cov > 0`. -/
def trendOf (w : List ℚ) : String :=
  if 20 ≤ w.length then
    if (49 : ℚ) / 100 *
        (popVar (idxList (w.drop (w.length - 20)).length) * popVar (w.drop (w.length - 20)))
        < covList (idxList (w.drop (w.length - 20)).length) (w.drop (w.length - 20)) ^ 2 then
      if 0 < covList (idxList (w.drop (w.length - 20)).length) (w.drop (w.length - 20)) then
        "increasing"
      else "decreasing"
    else "stable"
  else "stable"

/-- `self.anomaly_threshold = 3.0`. -/
def anomaly_threshold : ℚ := 3

/-- The analysis dict returned by `analyze_message` (minus the wall-clock
`analysis_timestamp` field).  `anomaly_scoreSq` is the square of the returned
`anomaly_score`, and `var` the square of the returned `std`; both squares are
exact rationals whereas the originals need a square root. -/
structure AnalysisResult where
  is_anomaly : Bool
  anomaly_scoreSq : ℚ
  trend : String
  mean : ℚ
  var : ℚ
deriving DecidableEq, Repr

/-- One `analyze_message` call on the stats entry of one key: update the
rolling statistics, then score `z = |value - mean|/std` against the threshold
when `std > 0` (test written on the squares: `std > 0 ↔ var > 0` and
`z > 3 ↔ 9·var < (value - mean)²`), else report score 0 and no anomaly. -/
def analyzeOne (s : MetricStats) (v : ℚ) : MetricStats × AnalysisResult :=
  ( updateStats s v,
    { is_anomaly := decide (0 < (updateStats s v).var ∧
        anomaly_threshold ^ 2 * (updateStats s v).var < (v - (updateStats s v).mean) ^ 2)
      anomaly_scoreSq := if 0 < (updateStats s v).var then
        (v - (updateStats s v).mean) ^ 2 / (updateStats s v).var else 0
      trend := trendOf (updateStats s v).values
      mean := (updateStats s v).mean
      var := (updateStats s v).var } )

/-- The `anomaly_score` float of the returned analysis dict (z-score
magnitude), recovered from its stored square. -/
noncomputable def AnalysisResult.anomaly_score (r : AnalysisResult) : ℝ :=
  Real.sqrt (r.anomaly_scoreSq : ℝ)

/-- `RealTimeAnalyzer.metric_stats`: the defaultdict from metric keys to
per-key rolling statistics. -/
def AnalyzerState := String → MetricStats

/-- A fresh `RealTimeAnalyzer`: every key at the defaultdict initial entry. -/
def initAnalyzer : AnalyzerState := fun _ => initStats

/-- `metric_key = f"{message.device_id}:{message.metric_type}"`. -/
def metricKey (m : StreamMessage) : String := m.device_id ++ ":" ++ m.metric_type

/-- `RealTimeAnalyzer.analyze_message`: update the entry of the message's key
and return the analysis dict. -/
def analyze_message (a : AnalyzerState) (m : StreamMessage) : AnalyzerState × AnalysisResult :=
  let p := analyzeOne (a (metricKey m)) m.value
  (fun k2 => if k2 = metricKey m then p.1 else a k2, p.2)

/-- Feed a list of messages through `analyze_message`, keeping the state. -/
def runMessages (a : AnalyzerState) (ms : List StreamMessage) : AnalyzerState :=
  ms.foldl (fun a2 m => (analyze_message a2 m).1) a

/-- Stddev of a window as the specification defines it: 0 when the window
holds fewer than 10 samples, the population standard deviation otherwise.
This is the spec-side quantity the analyzer's reported values are compared
against. -/
noncomputable def specWindowStddev (w : List ℚ) : ℝ :=
  if w.length < 10 then 0 else Real.sqrt ((popVar w : ℚ) : ℝ)

/-- Invariant of every reachable `MetricStats` entry: the stored variance is
nonnegative (it is 0.0 initially and a square afterwards), and while the
window holds fewer than 10 samples the statistics were never recomputed, so
the stored variance is still 0. -/
def statsInv (s : MetricStats) : Prop :=
  0 ≤ s.var ∧ (s.values.length < 10 → s.var = 0)

/-- The scoring contract of one `analyze_message` call: writing `w` for the
window after the update, the reported score is `|value - mean(w)|/stddev(w)`
when `stddev(w) > 0` and 0 when `stddev(w) = 0` (with `stddev` as the spec
defines it, 0 below 10 samples); the message is flagged anomalous exactly
when the score exceeds 3; and below 10 samples the score is 0 and no anomaly
is flagged. -/
def messageAnalysisSpec (a : AnalyzerState) (m : StreamMessage) : Prop :=
  (0 < specWindowStddev (updateStats (a (metricKey m)) m.value).values →
      (analyze_message a m).2.anomaly_score
        = |(m.value : ℝ) - ((listMean (updateStats (a (metricKey m)) m.value).values : ℚ) : ℝ)|
            / specWindowStddev (updateStats (a (metricKey m)) m.value).values)
  ∧ (specWindowStddev (updateStats (a (metricKey m)) m.value).values = 0 →
      (analyze_message a m).2.anomaly_score = 0)
  ∧ ((analyze_message a m).2.is_anomaly = true ↔ 3 < (analyze_message a m).2.anomaly_score)
  ∧ ((updateStats (a (metricKey m)) m.value).values.length < 10 →
      (analyze_message a m).2.anomaly_score = 0 ∧ (analyze_message a m).2.is_anomaly = false)

/-- First ten values of concrete scenario 1 of the specification. -/
def scenarioValues : List ℚ := [230, 231, 229, 230, 232, 231, 230, 229, 231, 230]

/-- A voltage reading of meter `m1`, key `m1:voltage`. -/
def voltageMsg (v : ℚ) : StreamMessage :=
  { timestamp := 0, device_id := "m1", metric_type := "voltage", value := v, unit := "V" }

/-- Analyzer state after feeding the ten baseline values of scenario 1. -/
def scenarioState : AnalyzerState := runMessages initAnalyzer (scenarioValues.map voltageMsg)

/-- `WebSocketStreamer`: the registered connection set and the topic
subscription map, with connections as numeric identifiers. -/
structure WebSocketStreamer where
  connections : Finset Nat
  subscriptions : String → Finset Nat

/-- A fresh `WebSocketStreamer`: no connections, empty defaultdict. -/
def emptyStreamer : WebSocketStreamer :=
  { connections := ∅, subscriptions := fun _ => ∅ }

/-- `register_connection`: `self.connections.add(websocket)`. -/
def register_connection (w : WebSocketStreamer) (c : Nat) : WebSocketStreamer :=
  { w with connections := insert c w.connections }

/-- `subscribe`: `self.subscriptions[topic].add(websocket)`. -/
def subscribe (w : WebSocketStreamer) (c : Nat) (topic : String) : WebSocketStreamer :=
  { w with subscriptions := fun t =>
      if t = topic then insert c (w.subscriptions t) else w.subscriptions t }

/-- `unsubscribe`: `self.subscriptions[topic].discard(websocket)`. -/
def unsubscribe (w : WebSocketStreamer) (c : Nat) (topic : String) : WebSocketStreamer :=
  { w with subscriptions := fun t =>
      if t = topic then (w.subscriptions t).erase c else w.subscriptions t }

/-- The set of connections `broadcast(message, topic)` sends to: nothing when
no connection is registered; otherwise all connections when `topic == "all"`,
else exactly `self.subscriptions[topic]`. -/
def broadcastRecipients (w : WebSocketStreamer) (topic : String) : Finset Nat :=
  if w.connections = ∅ then ∅
  else if topic = "all" then w.connections
  else w.subscriptions topic

/-- Streamer with connections 0 and 1 where connection 0 subscribed to the
wildcard topic `"all"`. -/
def wCE : WebSocketStreamer :=
  subscribe (register_connection (register_connection emptyStreamer 0) 1) 0 "all"

/-- Streamer of concrete scenario 4: connection 0 subscribed to
`"dev1:voltage"`. -/
def wX : WebSocketStreamer :=
  subscribe (register_connection emptyStreamer 0) 0 "dev1:voltage"

/-- One escalation rule of `Alert.escalation_rules`
(`{level, delay_minutes, channels}`). -/
structure EscalationRule where
  level : Nat := 0
  delay_minutes : ℚ := 15
  channels : List String := []
deriving DecidableEq, Repr

/-- `Alert` dataclass of the monitoring service (the `created_at`/`updated_at`
timestamps and free-form `tags` are omitted: no evaluation path reads them). -/
structure Alert where
  alert_id : String
  name : String := ""
  description : String := ""
  severity : String := "warning"
  condition : String := ""
  threshold : ℚ
  comparison : String
  duration : Nat := 0
  evaluation_interval : Nat := 60
  is_active : Bool := true
  escalation_rules : List EscalationRule := []
  notification_channels : List String := []
  runbook_url : Option String := none
deriving DecidableEq, Repr

/-- The key of an active alert instance.  The code builds
`f"{alert.alert_id}_{hash(str(sorted(labels.items())))}"`; the embedding
keeps the pair (alert id, sorted label list) itself, treating the hash as
injective on the label sets in play. -/
structure AlertKey where
  alert_id : String
  labels : List (String × String)
deriving DecidableEq, Repr

/-- Lexicographic order on label pairs, as `sorted(labels.items())` uses. -/
def labelLtB (p q : String × String) : Bool :=
  decide (p.1 < q.1) || (decide (p.1 = q.1) && decide (p.2 < q.2))

/-- Sorted insertion of one label pair. -/
def insertLabel (p : String × String) : List (String × String) → List (String × String)
  | [] => [p]
  | q :: t => if labelLtB p q then p :: q :: t else q :: insertLabel p t

/-- `sorted(labels.items())` by insertion sort. -/
def sortLabels : List (String × String) → List (String × String)
  | [] => []
  | p :: t => insertLabel p (sortLabels t)

/-- The `alert_key` of `evaluate_alert`. -/
def mkAlertKey (alert : Alert) (labels : List (String × String)) : AlertKey :=
  { alert_id := alert.alert_id, labels := sortLabels labels }

/-- `AlertInstance` dataclass. -/
structure AlertInstance where
  instance_id : AlertKey
  alert_id : String
  fired_at : ℚ
  resolved_at : Option ℚ
  current_value : ℚ
  threshold : ℚ
  labels : List (String × String)
  annotations : List (String × String)
  escalation_level : Nat := 0
  acknowledged : Bool := false
  acknowledged_by : Option String := none
  acknowledged_at : Option ℚ := none
deriving DecidableEq, Repr

/-- Notifications posted to the notification service: `_fire_alert`,
`_resolve_alert` and `_handle_escalation` each send exactly one. -/
inductive NotifEvent where
  | fired (alert_id : String) (key : AlertKey) (value threshold : ℚ)
  | resolved (alert_id : String) (key : AlertKey)
  | escalated (alert_id : String) (key : AlertKey) (level : Nat)
deriving DecidableEq, Repr

/-- `AlertManager` state: the insertion-ordered `active_alerts` dict, the
`alert_history` list, the set of keys with a live (not cancelled) escalation
task, and the log of notifications sent so far. -/
structure AlertManagerState where
  active_alerts : List (AlertKey × AlertInstance)
  alert_history : List AlertInstance
  escalation_timers : List AlertKey
  notifications : List NotifEvent
deriving DecidableEq, Repr

/-- `AlertManager.__init__`: everything empty. -/
def initAlertManager : AlertManagerState :=
  { active_alerts := [], alert_history := [], escalation_timers := [], notifications := [] }

/-- Dict read: first binding of the key. -/
def lookupKey : List (AlertKey × AlertInstance) → AlertKey → Option AlertInstance
  | [], _ => none
  | (k2, i) :: t, k => if k2 = k then some i else lookupKey t k

/-- Dict write: replace in place, or append a new binding. -/
def setKey : List (AlertKey × AlertInstance) → AlertKey → AlertInstance →
    List (AlertKey × AlertInstance)
  | [], k, i => [(k, i)]
  | (k2, i2) :: t, k, i => if k2 = k then (k, i) :: t else (k2, i2) :: setKey t k i

/-- Dict delete. -/
def eraseKey : List (AlertKey × AlertInstance) → AlertKey → List (AlertKey × AlertInstance)
  | [], _ => []
  | (k2, i2) :: t, k => if k2 = k then eraseKey t k else (k2, i2) :: eraseKey t k

/-- `self.escalation_timers[alert_key] = task` (keys are unique). -/
def insertTimer (l : List AlertKey) (k : AlertKey) : List AlertKey :=
  if k ∈ l then l else l ++ [k]

/-- `task.cancel(); del self.escalation_timers[alert_key]`. -/
def eraseTimer (l : List AlertKey) (k : AlertKey) : List AlertKey :=
  l.filter (fun k2 => k2 ≠ k)

/-- `AlertManager._evaluate_condition` (the `condition` string is accepted and
ignored, as in the code; only `comparison` drives the outcome). -/
def evaluate_condition (condition : String) (value threshold : ℚ) (comparison : String) : Bool :=
  if comparison = ">" then decide (value > threshold)
  else if comparison = "<" then decide (value < threshold)
  else if comparison = ">=" then decide (value ≥ threshold)
  else if comparison = "<=" then decide (value ≤ threshold)
  else if comparison = "==" then decide (value = threshold)
  else if comparison = "!=" then decide (value ≠ threshold)
  else false

/-- The `AlertInstance` built by `evaluate_alert` when a condition newly
triggers: `fired_at = datetime.now()`, `resolved_at = None`, level 0,
unacknowledged. -/
def firedInstance (alert : Alert) (key : AlertKey) (labels : List (String × String))
    (current_value now : ℚ) : AlertInstance :=
  { instance_id := key
    alert_id := alert.alert_id
    fired_at := now
    resolved_at := none
    current_value := current_value
    threshold := alert.threshold
    labels := labels
    annotations := [("description", alert.description),
                    ("runbook_url", alert.runbook_url.getD ""),
                    ("severity", alert.severity)] }

/-- `AlertManager.evaluate_alert`: evaluate the condition; on a new trigger
register the instance, send the firing notification and start an escalation
timer when rules exist; on a repeat trigger only refresh `current_value`; on
a false condition with an active instance set `resolved_at`, send the
resolution notification, cancel the timer, move the instance to history and
drop it from the active set.  Returns the `triggered` boolean. -/
def evaluate_alert (s : AlertManagerState) (alert : Alert) (current_value : ℚ)
    (labels : List (String × String)) (now : ℚ) : AlertManagerState × Bool :=
  if evaluate_condition alert.condition current_value alert.threshold alert.comparison then
    match lookupKey s.active_alerts (mkAlertKey alert labels) with
    | none =>
        ({ s with
            active_alerts := setKey s.active_alerts (mkAlertKey alert labels)
              (firedInstance alert (mkAlertKey alert labels) labels current_value now)
            notifications := s.notifications
              ++ [NotifEvent.fired alert.alert_id (mkAlertKey alert labels)
                    current_value alert.threshold]
            escalation_timers :=
              if alert.escalation_rules.isEmpty then s.escalation_timers
              else insertTimer s.escalation_timers (mkAlertKey alert labels) },
          true)
    | some inst =>
        ({ s with active_alerts := (setKey s.active_alerts (mkAlertKey alert labels)
            { inst with current_value := current_value }) },
          true)
  else
    match lookupKey s.active_alerts (mkAlertKey alert labels) with
    | some inst =>
        ({ s with
            active_alerts := eraseKey s.active_alerts (mkAlertKey alert labels)
            escalation_timers := eraseTimer s.escalation_timers (mkAlertKey alert labels)
            alert_history := s.alert_history ++ [{ inst with resolved_at := some now }]
            notifications := s.notifications
              ++ [NotifEvent.resolved alert.alert_id (mkAlertKey alert labels)] },
          false)
    | none => (s, false)

/-- The check `_handle_escalation` performs when one rule's delay elapses:
the step only happens while the task is alive (`key ∈ escalation_timers`
models "not cancelled"), and then escalates — incrementing
`escalation_level` and sending the escalation notification — exactly when
the instance is still active and not acknowledged. -/
def escalation_check (s : AlertManagerState) (alert : Alert) (key : AlertKey)
    (rule : EscalationRule) : AlertManagerState :=
  if key ∈ s.escalation_timers then
    match lookupKey s.active_alerts key with
    | some inst =>
        if inst.acknowledged then s
        else
          { s with
              active_alerts := (setKey s.active_alerts key
                { inst with escalation_level := inst.escalation_level + 1 })
              notifications := s.notifications
                ++ [NotifEvent.escalated alert.alert_id key (inst.escalation_level + 1)] }
    | none => s
  else s

/-- Result of the `POST /alerts/{alert_id}/acknowledge` route: a success
message or an `HTTPException`. -/
inductive AckResponse where
  | ok (alert_id acknowledged_by : String)
  | httpError (status : Nat) (detail : String)
deriving DecidableEq, Repr

/-- The route's scan of `active_alerts.values()` for the first instance with
the requested `alert_id`. -/
def findMatch : List (AlertKey × AlertInstance) → String → Option (AlertKey × AlertInstance)
  | [], _ => none
  | (k, i) :: t, aid => if i.alert_id = aid then some (k, i) else findMatch t aid

/-- The `acknowledge_alert` route handler: mark the first matching active
instance acknowledged and cancel its escalation timer, or answer 404 when no
active instance matches. -/
def acknowledge_alert (s : AlertManagerState) (alert_id acknowledged_by : String) (now : ℚ) :
    AlertManagerState × AckResponse :=
  match findMatch s.active_alerts alert_id with
  | some (k, inst) =>
      ({ s with
          active_alerts := (setKey s.active_alerts k
            { inst with acknowledged := true, acknowledged_by := some acknowledged_by,
                        acknowledged_at := some now })
          escalation_timers := eraseTimer s.escalation_timers k },
        AckResponse.ok alert_id acknowledged_by)
  | none => (s, AckResponse.httpError 404 "Alert not found")

/-- The invariant of claim C10: every key with a live escalation timer is a
key of an active alert instance. -/
def TimersSubset (s : AlertManagerState) : Prop :=
  ∀ k ∈ s.escalation_timers, (lookupKey s.active_alerts k).isSome = true

/-- The threshold-240 alert of concrete scenario 2. -/
def alert240 : Alert :=
  { alert_id := "scenario2", threshold := 240, comparison := ">" }

/-! Helper lemmas. -/

lemma StreamBuffer.add_max_size (b : StreamBuffer) (m : StreamMessage) :
    (b.add m).max_size = b.max_size := rfl

lemma StreamBuffer.length_add_le (b : StreamBuffer) (m : StreamMessage)
    (h : b.buffer.length ≤ b.max_size) :
    (b.add m).buffer.length ≤ b.max_size := by
  unfold StreamBuffer.add
  simp only
  split
  · simp only [List.length_drop, List.length_append, List.length_cons]
    omega
  · simp only [List.length_append, List.length_cons] at *
    omega

lemma StreamBuffer.foldl_length_le (C : Nat) (ms : List StreamMessage) :
    (ms.foldl StreamBuffer.add (mkStreamBuffer C)).buffer.length ≤ C ∧
    (ms.foldl StreamBuffer.add (mkStreamBuffer C)).max_size = C := by
  suffices h : ∀ b : StreamBuffer, b.buffer.length ≤ b.max_size →
      (ms.foldl StreamBuffer.add b).buffer.length ≤ b.max_size ∧
      (ms.foldl StreamBuffer.add b).max_size = b.max_size by
    exact h (mkStreamBuffer C) (by simp [mkStreamBuffer])
  induction ms with
  | nil => intro b hb; exact ⟨hb, rfl⟩
  | cons m t ih =>
      intro b hb
      have h1 := StreamBuffer.length_add_le b m hb
      have h2 := StreamBuffer.add_max_size b m
      have := ih (b.add m) (h2 ▸ h1)
      simp only [List.foldl_cons]
      exact ⟨h2 ▸ this.1, h2 ▸ this.2⟩

lemma popVar_nonneg (l : List ℚ) : 0 ≤ popVar l := by
  unfold popVar listMean
  apply div_nonneg
  · apply List.sum_nonneg
    intro x hx
    simp only [List.mem_map] at hx
    obtain ⟨y, _, rfl⟩ := hx
    positivity
  · positivity

lemma pushWindow_length (w : List ℚ) (v : ℚ) :
    (pushWindow w v).length = min (w.length + 1) windowMax := by
  unfold pushWindow
  by_cases hc : windowMax < (w ++ [v]).length
  · rw [if_pos hc]
    simp only [windowMax, List.length_drop, List.length_append, List.length_cons,
      List.length_nil] at *
    omega
  · rw [if_neg hc]
    simp only [windowMax, List.length_append, List.length_cons, List.length_nil] at *
    omega

lemma pushWindow_length_lt (w : List ℚ) (v : ℚ) (h : (pushWindow w v).length < 10) :
    w.length < 10 ∧ (pushWindow w v).length = w.length + 1 := by
  rw [pushWindow_length] at h ⊢
  simp only [windowMax] at *
  omega

lemma statsInv_updateStats (s : MetricStats) (v : ℚ) (h : statsInv s) :
    statsInv (updateStats s v) := by
  unfold updateStats statsInv
  split
  · exact ⟨popVar_nonneg _, by intro hlen; simp only at hlen; omega⟩
  · refine ⟨h.1, ?_⟩
    intro hlen
    simp only at hlen
    exact h.2 (pushWindow_length_lt s.values v hlen).1

lemma statsInv_init : statsInv initStats := by
  constructor
  · norm_num [initStats]
  · intro _; rfl

lemma analyzeOne_spec (s : MetricStats) (v : ℚ) (h : statsInv s) :
    (0 < specWindowStddev (updateStats s v).values →
      (analyzeOne s v).2.anomaly_score
        = |(v : ℝ) - ((listMean (updateStats s v).values : ℚ) : ℝ)|
            / specWindowStddev (updateStats s v).values)
  ∧ (specWindowStddev (updateStats s v).values = 0 → (analyzeOne s v).2.anomaly_score = 0)
  ∧ ((analyzeOne s v).2.is_anomaly = true ↔ 3 < (analyzeOne s v).2.anomaly_score)
  ∧ ((updateStats s v).values.length < 10 →
      (analyzeOne s v).2.anomaly_score = 0 ∧ (analyzeOne s v).2.is_anomaly = false) := by
  have hw : (analyzeOne s v).2.anomaly_scoreSq
      = if 0 < (updateStats s v).var then (v - (updateStats s v).mean) ^ 2 / (updateStats s v).var
        else 0 := rfl
  have hb : (analyzeOne s v).2.is_anomaly
      = decide (0 < (updateStats s v).var ∧
          anomaly_threshold ^ 2 * (updateStats s v).var < (v - (updateStats s v).mean) ^ 2) := rfl
  by_cases hlen : 10 ≤ (pushWindow s.values v).length
  · have hval : (updateStats s v).values = pushWindow s.values v := by
      unfold updateStats; rw [if_pos hlen]
    have hmean : (updateStats s v).mean = listMean (pushWindow s.values v) := by
      unfold updateStats; rw [if_pos hlen]
    have hvar' : (updateStats s v).var = popVar (pushWindow s.values v) := by
      unfold updateStats; rw [if_pos hlen]
    simp only [hval, hmean, hvar'] at hw hb ⊢
    have hlen' : ¬ (pushWindow s.values v).length < 10 := by omega
    have hspec : specWindowStddev (pushWindow s.values v)
        = Real.sqrt ((popVar (pushWindow s.values v) : ℚ) : ℝ) := by
      unfold specWindowStddev; rw [if_neg hlen']
    rw [hspec]
    by_cases hvar : 0 < popVar (pushWindow s.values v)
    · have hvarR : (0:ℝ) < ((popVar (pushWindow s.values v) : ℚ) : ℝ) := by exact_mod_cast hvar
      have hsqpos : 0 < Real.sqrt ((popVar (pushWindow s.values v) : ℚ) : ℝ) :=
        Real.sqrt_pos.mpr hvarR
      have hscore : (analyzeOne s v).2.anomaly_score
          = |(v : ℝ) - ((listMean (pushWindow s.values v) : ℚ) : ℝ)|
              / Real.sqrt ((popVar (pushWindow s.values v) : ℚ) : ℝ) := by
        unfold AnalysisResult.anomaly_score
        rw [hw, if_pos hvar]
        push_cast
        rw [Real.sqrt_div (by positivity) _, Real.sqrt_sq_eq_abs]
      have hsig : Real.sqrt ((popVar (pushWindow s.values v) : ℚ) : ℝ) ^ 2
          = ((popVar (pushWindow s.values v) : ℚ) : ℝ) := Real.sq_sqrt hvarR.le
      have habs : |(v : ℝ) - ((listMean (pushWindow s.values v) : ℚ) : ℝ)| ^ 2
          = (((v - listMean (pushWindow s.values v) : ℚ)) : ℝ) ^ 2 := by
        push_cast
        rw [sq_abs]
      refine ⟨fun _ => hscore, ?_, ?_, ?_⟩
      · intro hz
        rw [Real.sqrt_eq_zero'] at hz
        exact absurd hvarR (not_lt.mpr hz)
      · rw [hb, hscore]
        simp only [decide_eq_true_eq]
        rw [lt_div_iff₀ hsqpos]
        constructor
        · rintro ⟨-, hlt⟩
          refine lt_of_pow_lt_pow_left₀ 2 (abs_nonneg _) ?_
          rw [mul_pow, hsig, habs]
          have : ((anomaly_threshold ^ 2 * popVar (pushWindow s.values v) : ℚ) : ℝ)
              < (((v - listMean (pushWindow s.values v)) ^ 2 : ℚ) : ℝ) := by exact_mod_cast hlt
          push_cast at this ⊢
          norm_num [anomaly_threshold] at this ⊢
          linarith
        · intro hlt
          refine ⟨hvar, ?_⟩
          have h1 : (3 * Real.sqrt ((popVar (pushWindow s.values v) : ℚ) : ℝ)) ^ 2
              < |(v : ℝ) - ((listMean (pushWindow s.values v) : ℚ) : ℝ)| ^ 2 :=
            pow_lt_pow_left₀ hlt (by positivity) (by norm_num)
          rw [mul_pow, hsig, habs] at h1
          have h2 : ((anomaly_threshold ^ 2 * popVar (pushWindow s.values v) : ℚ) : ℝ)
              < (((v - listMean (pushWindow s.values v)) ^ 2 : ℚ) : ℝ) := by
            push_cast at h1 ⊢
            norm_num [anomaly_threshold] at h1 ⊢
            linarith
          exact_mod_cast h2
      · intro hcon; omega
    · have hvz : popVar (pushWindow s.values v) = 0 :=
        le_antisymm (not_lt.mp hvar) (popVar_nonneg _)
      have hscore : (analyzeOne s v).2.anomaly_score = 0 := by
        unfold AnalysisResult.anomaly_score
        rw [hw, if_neg hvar]
        simp
      refine ⟨?_, fun _ => hscore, ?_, ?_⟩
      · intro hpos
        rw [hvz] at hpos
        simp at hpos
      · rw [hb, hscore]
        simp only [decide_eq_true_eq]
        constructor
        · rintro ⟨hv0, -⟩; exact absurd hv0 hvar
        · intro h3; norm_num at h3
      · intro hcon; omega
  · have hval : (updateStats s v).values = pushWindow s.values v := by
      unfold updateStats; rw [if_neg hlen]
    have hmean : (updateStats s v).mean = s.mean := by
      unfold updateStats; rw [if_neg hlen]
    have hvar' : (updateStats s v).var = s.var := by
      unfold updateStats; rw [if_neg hlen]
    have hlt : (pushWindow s.values v).length < 10 := by omega
    have hvz : s.var = 0 := h.2 (pushWindow_length_lt s.values v hlt).1
    simp only [hval, hmean, hvar', hvz] at hw hb ⊢
    have hspec : specWindowStddev (pushWindow s.values v) = 0 := by
      unfold specWindowStddev; rw [if_pos hlt]
    have hscore : (analyzeOne s v).2.anomaly_score = 0 := by
      unfold AnalysisResult.anomaly_score
      rw [hw]
      norm_num
    refine ⟨?_, fun _ => hscore, ?_, fun _ => ⟨hscore, ?_⟩⟩
    · intro hpos
      rw [hspec] at hpos
      simp at hpos
    · rw [hb, hscore]
      simp only [decide_eq_true_eq]
      constructor
      · rintro ⟨hv0, -⟩; norm_num at hv0
      · intro h3; norm_num at h3
    · rw [hb]
      simp

lemma metricKey_voltageMsg (v : ℚ) : metricKey (voltageMsg v) = "m1:voltage" := rfl

lemma runMessages_voltage (a : AnalyzerState) (vs : List ℚ) :
    runMessages a (vs.map voltageMsg) "m1:voltage"
      = vs.foldl updateStats (a "m1:voltage") := by
  induction vs generalizing a with
  | nil => rfl
  | cons v t ih =>
      simp only [List.map_cons, runMessages, List.foldl_cons]
      have := ih (fun k2 => if k2 = metricKey (voltageMsg v)
        then (analyzeOne (a (metricKey (voltageMsg v))) (voltageMsg v).value).1 else a k2)
      simp only [runMessages] at this
      rw [show (analyze_message a (voltageMsg v)).1
        = (fun k2 => if k2 = metricKey (voltageMsg v)
            then (analyzeOne (a (metricKey (voltageMsg v))) (voltageMsg v).value).1 else a k2)
        from rfl]
      rw [this]
      simp [metricKey, voltageMsg, analyzeOne]

lemma scenarioState_key : scenarioState "m1:voltage"
    = { values := scenarioValues, mean := 2303/10, var := 81/100 } := by
  have h1 : scenarioState "m1:voltage" = scenarioValues.foldl updateStats initStats := by
    simpa [scenarioState] using runMessages_voltage initAnalyzer scenarioValues
  rw [h1]
  simp only [scenarioValues, List.foldl_cons, List.foldl_nil]
  norm_num [updateStats, pushWindow, windowMax, initStats, listMean, popVar]

lemma scenario500_result : (analyze_message scenarioState (voltageMsg 500)).2
    = { is_anomaly := true, anomaly_scoreSq := 7273809/727470, trend := "stable",
        mean := 2803/11, var := 727470/121 } := by
  have hr : (analyze_message scenarioState (voltageMsg 500)).2
      = (analyzeOne (scenarioState "m1:voltage") 500).2 := rfl
  rw [hr, scenarioState_key]
  norm_num [analyzeOne, updateStats, pushWindow, windowMax, scenarioValues, listMean, popVar,
    trendOf, anomaly_threshold]

lemma lookupKey_setKey_self (l : List (AlertKey × AlertInstance)) (k : AlertKey)
    (i : AlertInstance) : lookupKey (setKey l k i) k = some i := by
  induction l with
  | nil => simp [setKey, lookupKey]
  | cons p t ih =>
      obtain ⟨k2, i2⟩ := p
      by_cases h : k2 = k
      · subst h; simp [setKey, lookupKey]
      · simp [setKey, lookupKey, h, ih]

lemma lookupKey_setKey_ne (l : List (AlertKey × AlertInstance)) (k k3 : AlertKey)
    (i : AlertInstance) (h : k3 ≠ k) : lookupKey (setKey l k i) k3 = lookupKey l k3 := by
  induction l with
  | nil => simp [setKey, lookupKey, Ne.symm h]
  | cons p t ih =>
      obtain ⟨k2, i2⟩ := p
      by_cases h2 : k2 = k
      · subst h2
        simp [setKey, lookupKey, Ne.symm h]
      · simp [setKey, lookupKey, h2, ih]

lemma lookupKey_eraseKey_self (l : List (AlertKey × AlertInstance)) (k : AlertKey) :
    lookupKey (eraseKey l k) k = none := by
  induction l with
  | nil => simp [eraseKey, lookupKey]
  | cons p t ih =>
      obtain ⟨k2, i2⟩ := p
      by_cases h : k2 = k
      · simp [eraseKey, h, ih]
      · simp [eraseKey, lookupKey, h, ih]

lemma lookupKey_eraseKey_ne (l : List (AlertKey × AlertInstance)) (k k3 : AlertKey)
    (h : k3 ≠ k) : lookupKey (eraseKey l k) k3 = lookupKey l k3 := by
  induction l with
  | nil => simp [eraseKey]
  | cons p t ih =>
      obtain ⟨k2, i2⟩ := p
      by_cases h2 : k2 = k
      · subst h2
        simp [eraseKey, lookupKey, Ne.symm h, ih]
      · simp [eraseKey, lookupKey, h2, ih]

lemma mem_eraseTimer (l : List AlertKey) (k k2 : AlertKey) :
    k2 ∈ eraseTimer l k ↔ k2 ∈ l ∧ k2 ≠ k := by
  simp [eraseTimer, List.mem_filter]

lemma not_mem_eraseTimer_self (l : List AlertKey) (k : AlertKey) :
    k ∉ eraseTimer l k := by
  simp [mem_eraseTimer]

lemma mem_insertTimer (l : List AlertKey) (k k2 : AlertKey) :
    k2 ∈ insertTimer l k ↔ k2 ∈ l ∨ k2 = k := by
  unfold insertTimer
  split
  · constructor
    · intro h; exact Or.inl h
    · rintro (h | rfl)
      · exact h
      · assumption
  · simp

lemma evaluate_alert_fire (s : AlertManagerState) (alert : Alert) (v : ℚ)
    (labels : List (String × String)) (now : ℚ)
    (hc : evaluate_condition alert.condition v alert.threshold alert.comparison = true)
    (hnone : lookupKey s.active_alerts (mkAlertKey alert labels) = none) :
    evaluate_alert s alert v labels now =
      ({ s with
          active_alerts := setKey s.active_alerts (mkAlertKey alert labels)
            (firedInstance alert (mkAlertKey alert labels) labels v now)
          notifications := s.notifications
            ++ [NotifEvent.fired alert.alert_id (mkAlertKey alert labels) v alert.threshold]
          escalation_timers :=
            if alert.escalation_rules.isEmpty then s.escalation_timers
            else insertTimer s.escalation_timers (mkAlertKey alert labels) },
        true) := by
  unfold evaluate_alert
  rw [hc, hnone]
  rfl

lemma evaluate_alert_resolve (s : AlertManagerState) (alert : Alert) (v : ℚ)
    (labels : List (String × String)) (now : ℚ) (inst : AlertInstance)
    (hc : evaluate_condition alert.condition v alert.threshold alert.comparison = false)
    (hsome : lookupKey s.active_alerts (mkAlertKey alert labels) = some inst) :
    evaluate_alert s alert v labels now =
      ({ s with
          active_alerts := eraseKey s.active_alerts (mkAlertKey alert labels)
          escalation_timers := eraseTimer s.escalation_timers (mkAlertKey alert labels)
          alert_history := s.alert_history ++ [{ inst with resolved_at := some now }]
          notifications := s.notifications
            ++ [NotifEvent.resolved alert.alert_id (mkAlertKey alert labels)] },
        false) := by
  unfold evaluate_alert
  rw [hc, hsome]
  simp

/-! Claim theorems. -/

/-- C3: for every sequence of `StreamBuffer.add` calls on a buffer of capacity
C the buffer never holds more than C messages; an add at capacity evicts
exactly the oldest entry; `get_recent` only ever returns entries still in the
buffer (so never an evicted one); and concretely, with capacity 3, adding
a, b, c, d and retrieving with an unbounded window returns exactly [b, c, d]
in insertion order. -/
theorem streamBuffer_bound_evicts_oldest :
    (∀ (C : Nat) (ms : List StreamMessage),
        (ms.foldl StreamBuffer.add (mkStreamBuffer C)).buffer.length ≤ C) ∧
    (∀ (b : StreamBuffer) (m : StreamMessage),
        b.buffer.length = b.max_size → 0 < b.max_size →
        (b.add m).buffer = b.buffer.tail ++ [m]) ∧
    (∀ (b : StreamBuffer) (now seconds : ℚ),
        (b.get_recent now seconds).Sublist b.buffer) ∧
    ((((((mkStreamBuffer 3).add msgA).add msgB).add msgC).add msgD).get_recent 4 100
        = [msgB, msgC, msgD]) := by
  refine ⟨?_, ?_, ?_, ?_⟩
  · intro C ms; exact (StreamBuffer.foldl_length_le C ms).1
  · intro b m hlen hpos
    unfold StreamBuffer.add
    have hgt : b.max_size < (b.buffer ++ [m]).length := by
      simp [List.length_append, hlen]
    simp only [hgt, if_pos]
    have hdrop : (b.buffer ++ [m]).length - b.max_size = 1 := by
      simp [List.length_append, hlen]
    rw [hdrop]
    cases hb : b.buffer with
    | nil => exfalso; rw [hb] at hlen; simp at hlen; omega
    | cons x t => simp
  · intro b now seconds
    exact List.filter_sublist b.buffer
  · simp [mkStreamBuffer, StreamBuffer.add, StreamBuffer.get_recent, msgA, msgB, msgC, msgD,
      List.filter]
    norm_num

/-- Witness for C3: the bound and eviction statements instantiated at the
concrete capacity-3 buffer holding a, b, c. -/
theorem streamBuffer_bound_evicts_oldest_witness :
    ((((mkStreamBuffer 3).add msgA).add msgB).add msgC).buffer.length
        = ((((mkStreamBuffer 3).add msgA).add msgB).add msgC).max_size ∧
    0 < ((((mkStreamBuffer 3).add msgA).add msgB).add msgC).max_size ∧
    (((((mkStreamBuffer 3).add msgA).add msgB).add msgC).add msgD).buffer
        = ((((mkStreamBuffer 3).add msgA).add msgB).add msgC).buffer.tail ++ [msgD] := by
  refine ⟨by simp [mkStreamBuffer, StreamBuffer.add],
    by simp [mkStreamBuffer, StreamBuffer.add], ?_⟩
  exact streamBuffer_bound_evicts_oldest.2.1
    ((((mkStreamBuffer 3).add msgA).add msgB).add msgC) msgD
    (by simp [mkStreamBuffer, StreamBuffer.add]) (by simp [mkStreamBuffer, StreamBuffer.add])

/-- C2: for every incoming message (on any analyzer state satisfying the
reachability invariant of its key), the anomaly score equals
`|value - mean|/stddev` of the rolling window after the update when that
stddev is positive, and is 0 when the stddev is 0 — in particular whenever
the window holds fewer than 10 samples — and the message is classified
anomalous exactly when the score exceeds 3.0. -/
theorem analyzer_zscore_spec (a : AnalyzerState) (m : StreamMessage)
    (h : statsInv (a (metricKey m))) : messageAnalysisSpec a m := by
  have hr : (analyze_message a m).2 = (analyzeOne (a (metricKey m)) m.value).2 := rfl
  unfold messageAnalysisSpec
  rw [hr]
  exact analyzeOne_spec (a (metricKey m)) m.value h

/-- Witness for C2: the fresh analyzer receiving one voltage reading. -/
theorem analyzer_zscore_spec_witness :
    statsInv (initAnalyzer (metricKey (voltageMsg 7))) ∧
    messageAnalysisSpec initAnalyzer (voltageMsg 7) :=
  ⟨statsInv_init, analyzer_zscore_spec initAnalyzer (voltageMsg 7) statsInv_init⟩

/-- C4: after inserting the ten baseline values
[230,231,229,230,232,231,230,229,231,230] for key (m1, voltage), analyzing
the 11th value 500 reports `is_anomaly = true` with an anomaly score strictly
greater than 3.0 (the analyzer window holds 1000 ≥ 15 samples). -/
theorem analyzer_outlier_scenario :
    (analyze_message scenarioState (voltageMsg 500)).2.is_anomaly = true ∧
    3 < (analyze_message scenarioState (voltageMsg 500)).2.anomaly_score := by
  constructor
  · rw [scenario500_result]
  · rw [scenario500_result]
    unfold AnalysisResult.anomaly_score
    rw [show ((3:ℝ)) = Real.sqrt 9 by
      rw [show (9:ℝ) = 3 ^ 2 by norm_num, Real.sqrt_sq (by norm_num)]]
    apply Real.sqrt_lt_sqrt (by norm_num)
    norm_num

/-- Counterexample for C5 as stated: after a single value 5 the window is [5]
with textbook mean 5, yet the update reports the stale mean 0.0 — off by 5,
far beyond tolerance 1e-9.  (The code only recomputes the statistics once the
window holds at least 10 samples.) -/
theorem rollingStats_textbook_counterexample :
    ((analyze_message initAnalyzer (voltageMsg 5)).1 "m1:voltage").values = [5] ∧
    listMean [(5 : ℚ)] = 5 ∧
    (analyze_message initAnalyzer (voltageMsg 5)).2.mean = 0 ∧
    ¬ (|(analyze_message initAnalyzer (voltageMsg 5)).2.mean - listMean [(5 : ℚ)]|
        ≤ 1 / 1000000000) := by
  have hvals : ((analyze_message initAnalyzer (voltageMsg 5)).1 "m1:voltage").values = [5] := rfl
  have hmean : (analyze_message initAnalyzer (voltageMsg 5)).2.mean = 0 := rfl
  have hlm : listMean [(5 : ℚ)] = 5 := by norm_num [listMean]
  refine ⟨hvals, hlm, hmean, ?_⟩
  rw [hmean, hlm]
  norm_num

/-- C5 (amended): whenever the updated window holds at least 10 values, the
reported mean and variance equal the textbook population mean and variance of
the window exactly, hence the reported stddev equals
`sqrt(mean((x - mean)²))` and the claimed 1e-9 tolerance holds with slack. -/
theorem rollingStats_textbook_from_ten (s : MetricStats) (v : ℚ)
    (h : 10 ≤ (updateStats s v).values.length) :
    (updateStats s v).mean = listMean ((updateStats s v).values) ∧
    (updateStats s v).var = popVar ((updateStats s v).values) ∧
    Real.sqrt (((updateStats s v).var : ℚ) : ℝ)
      = Real.sqrt ((popVar ((updateStats s v).values) : ℚ) : ℝ) ∧
    |(updateStats s v).mean - listMean ((updateStats s v).values)| ≤ 1 / 1000000000 := by
  have hcond : 10 ≤ (pushWindow s.values v).length := by
    by_contra hc
    push_neg at hc
    have hval' : (updateStats s v).values = pushWindow s.values v := by
      unfold updateStats; rw [if_neg (by omega)]
    rw [hval'] at h
    omega
  have hval : (updateStats s v).values = pushWindow s.values v := by
    unfold updateStats; rw [if_pos hcond]
  have hmean : (updateStats s v).mean = listMean (pushWindow s.values v) := by
    unfold updateStats; rw [if_pos hcond]
  have hvar : (updateStats s v).var = popVar (pushWindow s.values v) := by
    unfold updateStats; rw [if_pos hcond]
  refine ⟨by rw [hmean, hval], by rw [hvar, hval], by rw [hvar, hval], ?_⟩
  rw [hmean, hval]
  simp

/-- Witness for C5 (amended): the tenth insertion, where the window first
reaches 10 samples. -/
theorem rollingStats_textbook_from_ten_witness :
    10 ≤ (updateStats { values := [1,2,3,4,5,6,7,8,9], mean := 0, var := 0 } 10).values.length ∧
    (updateStats { values := [1,2,3,4,5,6,7,8,9], mean := 0, var := 0 } 10).mean
      = listMean ((updateStats { values := [1,2,3,4,5,6,7,8,9], mean := 0, var := 0 }
          10).values) := by
  have h10 : 10 ≤ (updateStats { values := [1,2,3,4,5,6,7,8,9], mean := 0, var := 0 }
      10).values.length := by
    norm_num [updateStats, pushWindow, windowMax]
  exact ⟨h10, (rollingStats_textbook_from_ten _ 10 h10).1⟩

/-- Counterexample for C6 as stated: connection 0 is registered and subscribed
to the wildcard topic `"all"`, yet a broadcast on topic `"dev1:voltage"` does
not deliver to it — the code only special-cases `topic == "all"` at broadcast
time and never consults the `"all"` subscription set for other topics. -/
theorem broadcast_wildcard_counterexample :
    0 ∈ wCE.connections ∧ 0 ∈ wCE.subscriptions "all" ∧
    0 ∉ broadcastRecipients wCE "dev1:voltage" := by
  refine ⟨?_, ?_, ?_⟩
  · simp [wCE, subscribe, register_connection, emptyStreamer]
  · simp [wCE, subscribe, register_connection, emptyStreamer]
  · simp [wCE, subscribe, register_connection, emptyStreamer, broadcastRecipients,
      Finset.insert_ne_empty]

/-- C6 (amended): with at least one registered connection, a broadcast on a
topic other than `"all"` delivers exactly to the connections subscribed to
that topic (subscriptions to the wildcard `"all"` do not receive it), and a
broadcast on `"all"` delivers to every registered connection regardless of
subscriptions; concretely, a connection subscribed to `"dev1:voltage"`
receives nothing from a broadcast on `"dev1:current"`, receives broadcasts on
`"dev1:voltage"`, and receives broadcasts on `"all"`. -/
theorem broadcast_delivery (w : WebSocketStreamer) (t : String) (c : Nat)
    (hne : w.connections ≠ ∅) (hall : t ≠ "all") :
    (c ∈ broadcastRecipients w t ↔ c ∈ w.subscriptions t) ∧
    broadcastRecipients w "all" = w.connections ∧
    (0 ∉ broadcastRecipients wX "dev1:current" ∧
     0 ∈ broadcastRecipients wX "dev1:voltage" ∧
     0 ∈ broadcastRecipients wX "all") := by
  refine ⟨?_, ?_, ?_, ?_, ?_⟩
  · unfold broadcastRecipients
    rw [if_neg hne, if_neg hall]
  · unfold broadcastRecipients
    rw [if_neg hne, if_pos rfl]
  · simp [wX, subscribe, register_connection, emptyStreamer, broadcastRecipients,
      Finset.insert_ne_empty]
  · simp [wX, subscribe, register_connection, emptyStreamer, broadcastRecipients,
      Finset.insert_ne_empty]
  · simp [wX, subscribe, register_connection, emptyStreamer, broadcastRecipients,
      Finset.insert_ne_empty]

/-- Witness for C6 (amended): delivery characterization at the scenario-4
streamer and topic. -/
theorem broadcast_delivery_witness :
    wX.connections ≠ ∅ ∧ ("dev1:voltage" : String) ≠ "all" ∧
    (0 ∈ broadcastRecipients wX "dev1:voltage" ↔ 0 ∈ wX.subscriptions "dev1:voltage") := by
  have h1 : wX.connections ≠ ∅ := by
    simp [wX, subscribe, register_connection, emptyStreamer, Finset.insert_ne_empty]
  have h2 : ("dev1:voltage" : String) ≠ "all" := by decide
  exact ⟨h1, h2, (broadcast_delivery wX "dev1:voltage" 0 h1 h2).1⟩

/-- C1: a condition transitioning false→true→false across successive
`evaluate_alert` calls creates exactly one active instance and appends
exactly one firing notification, then resolves exactly once — appending one
resolution notification, setting the same instance's `resolved_at` with
`resolved_at > fired_at`, and removing it from the active set — and a later
false→true transition creates a fresh instance with a new `fired_at`. -/
theorem alertManager_lifecycle (s : AlertManagerState) (alert : Alert)
    (labels : List (String × String)) (v1 v2 v3 t1 t2 t3 : ℚ)
    (hc1 : evaluate_condition alert.condition v1 alert.threshold alert.comparison = true)
    (hc2 : evaluate_condition alert.condition v2 alert.threshold alert.comparison = false)
    (hc3 : evaluate_condition alert.condition v3 alert.threshold alert.comparison = true)
    (hnone : lookupKey s.active_alerts (mkAlertKey alert labels) = none)
    (ht12 : t1 < t2) (ht23 : t2 < t3) :
    (evaluate_alert s alert v1 labels t1).2 = true
    ∧ lookupKey (evaluate_alert s alert v1 labels t1).1.active_alerts (mkAlertKey alert labels)
        = some (firedInstance alert (mkAlertKey alert labels) labels v1 t1)
    ∧ (evaluate_alert s alert v1 labels t1).1.notifications
        = s.notifications
            ++ [NotifEvent.fired alert.alert_id (mkAlertKey alert labels) v1 alert.threshold]
    ∧ (evaluate_alert (evaluate_alert s alert v1 labels t1).1 alert v2 labels t2).2 = false
    ∧ (evaluate_alert (evaluate_alert s alert v1 labels t1).1 alert v2 labels t2).1.notifications
        = (evaluate_alert s alert v1 labels t1).1.notifications
            ++ [NotifEvent.resolved alert.alert_id (mkAlertKey alert labels)]
    ∧ lookupKey (evaluate_alert (evaluate_alert s alert v1 labels t1).1 alert v2
        labels t2).1.active_alerts (mkAlertKey alert labels) = none
    ∧ (evaluate_alert (evaluate_alert s alert v1 labels t1).1 alert v2 labels t2).1.alert_history
        = (evaluate_alert s alert v1 labels t1).1.alert_history
            ++ [{ firedInstance alert (mkAlertKey alert labels) labels v1 t1 with
                    resolved_at := some t2 }]
    ∧ ({ firedInstance alert (mkAlertKey alert labels) labels v1 t1 with
          resolved_at := some t2 }).fired_at < t2
    ∧ lookupKey (evaluate_alert
          (evaluate_alert (evaluate_alert s alert v1 labels t1).1 alert v2 labels t2).1
          alert v3 labels t3).1.active_alerts (mkAlertKey alert labels)
        = some (firedInstance alert (mkAlertKey alert labels) labels v3 t3)
    ∧ (firedInstance alert (mkAlertKey alert labels) labels v3 t3).fired_at = t3
    ∧ (firedInstance alert (mkAlertKey alert labels) labels v3 t3).fired_at
        ≠ (firedInstance alert (mkAlertKey alert labels) labels v1 t1).fired_at := by
  have hA := evaluate_alert_fire s alert v1 labels t1 hc1 hnone
  have hA1 : lookupKey (evaluate_alert s alert v1 labels t1).1.active_alerts
      (mkAlertKey alert labels)
      = some (firedInstance alert (mkAlertKey alert labels) labels v1 t1) := by
    rw [hA]
    exact lookupKey_setKey_self _ _ _
  have hB := evaluate_alert_resolve (evaluate_alert s alert v1 labels t1).1 alert v2 labels t2
    (firedInstance alert (mkAlertKey alert labels) labels v1 t1) hc2 hA1
  have hB1 : lookupKey (evaluate_alert (evaluate_alert s alert v1 labels t1).1 alert v2
      labels t2).1.active_alerts (mkAlertKey alert labels) = none := by
    rw [hB]
    exact lookupKey_eraseKey_self _ _
  have hC := evaluate_alert_fire
    (evaluate_alert (evaluate_alert s alert v1 labels t1).1 alert v2 labels t2).1
    alert v3 labels t3 hc3 hB1
  refine ⟨by rw [hA], hA1, by rw [hA], by rw [hB], by rw [hB], hB1, by rw [hB], ht12, ?_, rfl,
    ne_of_gt (lt_trans ht12 ht23)⟩
  rw [hC]
  exact lookupKey_setKey_self _ _ _

/-- Witness for C1: concrete scenario 2 — an alert with threshold 240 and
comparison `>`, evaluated at 245 (fires, instance created) and then at 200
(resolves, same instance's `resolved_at` set). -/
theorem alertManager_lifecycle_witness :
    evaluate_condition alert240.condition 245 alert240.threshold alert240.comparison = true
    ∧ evaluate_condition alert240.condition 200 alert240.threshold alert240.comparison = false
    ∧ lookupKey initAlertManager.active_alerts (mkAlertKey alert240 []) = none
    ∧ (evaluate_alert initAlertManager alert240 245 [] 1).2 = true
    ∧ lookupKey (evaluate_alert initAlertManager alert240 245 [] 1).1.active_alerts
        (mkAlertKey alert240 [])
        = some (firedInstance alert240 (mkAlertKey alert240 []) [] 245 1)
    ∧ (evaluate_alert (evaluate_alert initAlertManager alert240 245 [] 1).1 alert240 200 [] 2).2
        = false
    ∧ (evaluate_alert (evaluate_alert initAlertManager alert240 245 [] 1).1
        alert240 200 [] 2).1.alert_history
        = (evaluate_alert initAlertManager alert240 245 [] 1).1.alert_history
            ++ [{ firedInstance alert240 (mkAlertKey alert240 []) [] 245 1 with
                    resolved_at := some 2 }] := by
  have h1 : evaluate_condition alert240.condition 245 alert240.threshold alert240.comparison
      = true := by decide
  have h2 : evaluate_condition alert240.condition 200 alert240.threshold alert240.comparison
      = false := by decide
  have h3 : lookupKey initAlertManager.active_alerts (mkAlertKey alert240 []) = none := rfl
  have := alertManager_lifecycle initAlertManager alert240 [] 245 200 245 1 2 3 h1 h2 h1 h3
    (by norm_num) (by norm_num)
  exact ⟨h1, h2, h3, this.1, this.2.1, this.2.2.2.1, this.2.2.2.2.2.2.1⟩

/-- C7: acknowledging a firing instance before an escalation delay elapses
cancels its escalation task and leaves the instance active (not resolved) and
marked acknowledged, sends no notification, and the elapsed-delay check then
fires no escalation — neither for the cancelled timer nor, in any state, for
an acknowledged active instance — so that rule's escalation level never
fires. -/
theorem acknowledge_blocks_escalation (s : AlertManagerState)
    (aid acknowledged_by : String) (now : ℚ) (k : AlertKey) (inst : AlertInstance)
    (hmatch : findMatch s.active_alerts aid = some (k, inst)) :
    lookupKey (acknowledge_alert s aid acknowledged_by now).1.active_alerts k
        = some { inst with acknowledged := true, acknowledged_by := some acknowledged_by,
                           acknowledged_at := some now }
    ∧ ({ inst with acknowledged := true, acknowledged_by := some acknowledged_by,
                   acknowledged_at := some now } : AlertInstance).resolved_at = inst.resolved_at
    ∧ k ∉ (acknowledge_alert s aid acknowledged_by now).1.escalation_timers
    ∧ (acknowledge_alert s aid acknowledged_by now).1.notifications = s.notifications
    ∧ (∀ (alert : Alert) (rule : EscalationRule),
        escalation_check (acknowledge_alert s aid acknowledged_by now).1 alert k rule
          = (acknowledge_alert s aid acknowledged_by now).1)
    ∧ (∀ (s2 : AlertManagerState) (i : AlertInstance) (alert : Alert) (rule : EscalationRule),
        lookupKey s2.active_alerts k = some i → i.acknowledged = true →
        escalation_check s2 alert k rule = s2) := by
  have hs : acknowledge_alert s aid acknowledged_by now
      = ({ s with
            active_alerts := (setKey s.active_alerts k
              { inst with acknowledged := true, acknowledged_by := some acknowledged_by,
                          acknowledged_at := some now })
            escalation_timers := eraseTimer s.escalation_timers k },
          AckResponse.ok aid acknowledged_by) := by
    unfold acknowledge_alert
    rw [hmatch]
  have hnotin : k ∉ (acknowledge_alert s aid acknowledged_by now).1.escalation_timers := by
    rw [hs]
    exact not_mem_eraseTimer_self _ _
  refine ⟨?_, rfl, hnotin, by rw [hs], ?_, ?_⟩
  · rw [hs]
    exact lookupKey_setKey_self _ _ _
  · intro alert rule
    unfold escalation_check
    rw [if_neg hnotin]
  · intro s2 i alert rule hl hack
    unfold escalation_check
    split
    · rw [hl]
      simp [hack]
    · rfl

/-- Witness for C7: a single firing instance of the threshold-240 alert with
its escalation timer pending, acknowledged by "ops" at time 2. -/
theorem acknowledge_blocks_escalation_witness :
    findMatch
      [(mkAlertKey alert240 [], firedInstance alert240 (mkAlertKey alert240 []) [] 245 1)]
      "scenario2"
      = some (mkAlertKey alert240 [], firedInstance alert240 (mkAlertKey alert240 []) [] 245 1)
    ∧ lookupKey (acknowledge_alert
        { active_alerts :=
            [(mkAlertKey alert240 [], firedInstance alert240 (mkAlertKey alert240 []) [] 245 1)]
          alert_history := []
          escalation_timers := [mkAlertKey alert240 []]
          notifications := [] } "scenario2" "ops" 2).1.active_alerts (mkAlertKey alert240 [])
        = some { firedInstance alert240 (mkAlertKey alert240 []) [] 245 1 with
                  acknowledged := true, acknowledged_by := some "ops",
                  acknowledged_at := some 2 }
    ∧ mkAlertKey alert240 [] ∉ (acknowledge_alert
        { active_alerts :=
            [(mkAlertKey alert240 [], firedInstance alert240 (mkAlertKey alert240 []) [] 245 1)]
          alert_history := []
          escalation_timers := [mkAlertKey alert240 []]
          notifications := [] } "scenario2" "ops" 2).1.escalation_timers := by
  have hm : findMatch
      [(mkAlertKey alert240 [], firedInstance alert240 (mkAlertKey alert240 []) [] 245 1)]
      "scenario2"
      = some (mkAlertKey alert240 [],
          firedInstance alert240 (mkAlertKey alert240 []) [] 245 1) := rfl
  have := acknowledge_blocks_escalation
    { active_alerts :=
        [(mkAlertKey alert240 [], firedInstance alert240 (mkAlertKey alert240 []) [] 245 1)]
      alert_history := []
      escalation_timers := [mkAlertKey alert240 []]
      notifications := [] } "scenario2" "ops" 2 (mkAlertKey alert240 [])
    (firedInstance alert240 (mkAlertKey alert240 []) [] 245 1) hm
  exact ⟨hm, this.1, this.2.2.1⟩

/-- C8: scoring is deterministic and pure — two analyzer states agreeing on
the rolling statistics of the message's key, given equal message values,
produce identical analysis results (same `is_anomaly`, score, trend, mean and
stddev squares) and identical successor statistics for that key, so repeated
calls cannot change the outcome of later calls. -/
theorem analyze_message_deterministic (a1 a2 : AnalyzerState) (m1 m2 : StreamMessage)
    (hs : a1 (metricKey m1) = a2 (metricKey m2)) (hv : m1.value = m2.value) :
    (analyze_message a1 m1).2 = (analyze_message a2 m2).2 ∧
    (analyze_message a1 m1).1 (metricKey m1) = (analyze_message a2 m2).1 (metricKey m2) := by
  constructor
  · show (analyzeOne (a1 (metricKey m1)) m1.value).2
        = (analyzeOne (a2 (metricKey m2)) m2.value).2
    rw [hs, hv]
  · show (if metricKey m1 = metricKey m1 then (analyzeOne (a1 (metricKey m1)) m1.value).1
        else a1 (metricKey m1))
      = (if metricKey m2 = metricKey m2 then (analyzeOne (a2 (metricKey m2)) m2.value).1
        else a2 (metricKey m2))
    rw [if_pos rfl, if_pos rfl, hs, hv]

/-- Witness for C8: the same fresh analyzer and message on both sides. -/
theorem analyze_message_deterministic_witness :
    initAnalyzer (metricKey (voltageMsg 7)) = initAnalyzer (metricKey (voltageMsg 7)) ∧
    (voltageMsg 7).value = (voltageMsg 7).value ∧
    (analyze_message initAnalyzer (voltageMsg 7)).2
      = (analyze_message initAnalyzer (voltageMsg 7)).2 :=
  ⟨rfl, rfl,
    (analyze_message_deterministic initAnalyzer initAnalyzer (voltageMsg 7) (voltageMsg 7)
      rfl rfl).1⟩

/-- C9: acknowledging an alert id that matches no active instance answers 404
"Alert not found" and returns the state unchanged — active alerts, escalation
timers, history and notifications all intact. -/
theorem acknowledge_missing_returns_404 (s : AlertManagerState)
    (aid acknowledged_by : String) (now : ℚ)
    (hnone : findMatch s.active_alerts aid = none) :
    acknowledge_alert s aid acknowledged_by now
      = (s, AckResponse.httpError 404 "Alert not found") := by
  unfold acknowledge_alert
  rw [hnone]

/-- Witness for C9: acknowledging an unknown id on the fresh manager. -/
theorem acknowledge_missing_returns_404_witness :
    findMatch initAlertManager.active_alerts "nosuch" = none
    ∧ acknowledge_alert initAlertManager "nosuch" "ops" 5
        = (initAlertManager, AckResponse.httpError 404 "Alert not found") :=
  ⟨rfl, acknowledge_missing_returns_404 initAlertManager "nosuch" "ops" 5 rfl⟩

/-- C10: every key with a live escalation timer is a key of an active
instance — true initially and preserved by `evaluate_alert` (firing registers
the instance before starting its timer; resolving cancels the timer when the
instance is removed) and by acknowledging (which removes the timer while the
instance stays active). -/
theorem escalation_timer_subset_active :
    TimersSubset initAlertManager
    ∧ (∀ (s : AlertManagerState) (alert : Alert) (v : ℚ) (labels : List (String × String))
        (now : ℚ), TimersSubset s → TimersSubset (evaluate_alert s alert v labels now).1)
    ∧ (∀ (s : AlertManagerState) (aid acknowledged_by : String) (now : ℚ),
        TimersSubset s → TimersSubset (acknowledge_alert s aid acknowledged_by now).1) := by
  refine ⟨?_, ?_, ?_⟩
  · intro k hk
    simp [initAlertManager] at hk
  · intro s alert v labels now h
    unfold evaluate_alert
    split
    · cases hl : lookupKey s.active_alerts (mkAlertKey alert labels) with
      | none =>
          simp only [hl]
          intro k2 hk2
          simp only at hk2 ⊢
          by_cases hkk : k2 = mkAlertKey alert labels
          · subst hkk
            rw [lookupKey_setKey_self]
            rfl
          · rw [lookupKey_setKey_ne _ _ _ _ hkk]
            apply h
            by_cases hemp : alert.escalation_rules.isEmpty
            · rw [if_pos hemp] at hk2
              exact hk2
            · rw [if_neg hemp] at hk2
              rcases (mem_insertTimer _ _ _).mp hk2 with h2 | h2
              · exact h2
              · exact absurd h2 hkk
      | some inst =>
          simp only [hl]
          intro k2 hk2
          simp only at hk2 ⊢
          by_cases hkk : k2 = mkAlertKey alert labels
          · subst hkk
            rw [lookupKey_setKey_self]
            rfl
          · rw [lookupKey_setKey_ne _ _ _ _ hkk]
            exact h k2 hk2
    · cases hl : lookupKey s.active_alerts (mkAlertKey alert labels) with
      | none =>
          simp only [hl]
          exact h
      | some inst =>
          simp only [hl]
          intro k2 hk2
          simp only at hk2 ⊢
          rcases (mem_eraseTimer _ _ _).mp hk2 with ⟨h2, hne⟩
          rw [lookupKey_eraseKey_ne _ _ _ hne]
          exact h k2 h2
  · intro s aid acknowledged_by now h
    unfold acknowledge_alert
    cases hm : findMatch s.active_alerts aid with
    | none => exact h
    | some p =>
        obtain ⟨k, inst⟩ := p
        intro k2 hk2
        simp only at hk2 ⊢
        rcases (mem_eraseTimer _ _ _).mp hk2 with ⟨h2, hne⟩
        by_cases hkk : k2 = k
        · exact absurd hkk hne
        · rw [lookupKey_setKey_ne _ _ _ _ hkk]
          exact h k2 h2

/-- Witness for C10: the invariant at the fresh manager and after a concrete
firing evaluation. -/
theorem escalation_timer_subset_active_witness :
    TimersSubset initAlertManager
    ∧ TimersSubset (evaluate_alert initAlertManager alert240 245 [] 1).1 := by
  have h0 : TimersSubset initAlertManager := escalation_timer_subset_active.1
  exact ⟨h0, escalation_timer_subset_active.2.1 initAlertManager alert240 245 [] 1 h0⟩
